import Mathlib

/-!
Verification of the Connection Directory Service (src/main.py): an in-memory
keyed store of organization datasource connection records with three
operations (list, get by id, patch the lastSyncAt timestamp), embedded
shallowly in Lean.  Python dict state is modelled as an association list in
insertion order; each handler is modelled as an explicit state-passing
function returning the store after the call together with the HTTP result.
-/

/-- Nested credentials record of a connection (class Credentials). -/
structure Credentials where
  AppName : String
  AppSecret : String
  AppKey : String
  BaseURL : String
deriving DecidableEq

/-- Nested foundry configuration record (class FoundryConfig).  The field
names are exactly the Python model field names, which are snake case. -/
structure FoundryConfig where
  profiles_dataset_rid : String
  visits_dataset_rid : String
deriving DecidableEq

/-- A stored connection record / the GET response model
(class ConnectionResponse). -/
structure ConnectionResponse where
  id : String
  credentials : Credentials
  foundry_config : FoundryConfig
  lastSyncAt : Option String := none
deriving DecidableEq

/-- A parsed date-time value, modelling Python datetime with an optional
fixed utc offset in minutes (none models a naive datetime). -/
structure Datetime where
  year : Nat
  month : Nat
  day : Nat
  hour : Nat
  minute : Nat
  second : Nat
  microsecond : Nat
  tzOffsetMinutes : Option Int
deriving DecidableEq

/-- Left-pad the decimal rendering of a number with zeros to a given width. -/
def pad (w n : Nat) : String :=
  let s := toString n
  String.mk (List.replicate (w - s.length) '0') ++ s

/-- Modelled from the spec: the canonical ISO-8601 rendering the spec's
normalization sentence refers to; it reproduces Python datetime.isoformat,
which lives in the language runtime and not in this repository:
YYYY-MM-DDTHH:MM:SS, a .ffffff fraction only when the microsecond field is
nonzero, and a +HH:MM / -HH:MM suffix only when the value carries an offset. -/
def Datetime.isoformat (d : Datetime) : String :=
  pad 4 d.year ++ "-" ++ pad 2 d.month ++ "-" ++ pad 2 d.day ++ "T" ++
  pad 2 d.hour ++ ":" ++ pad 2 d.minute ++ ":" ++ pad 2 d.second ++
  (if d.microsecond = 0 then "" else "." ++ pad 6 d.microsecond) ++
  (match d.tzOffsetMinutes with
   | none => ""
   | some off =>
     (if off < 0 then "-" else "+") ++
     pad 2 (off.natAbs / 60) ++ ":" ++ pad 2 (off.natAbs % 60))

/-- Interpret a list of decimal digit characters as a number. -/
def digitsToNat (l : List Char) : Nat :=
  l.foldl (fun a c => 10 * a + (c.toNat - 48)) 0

/-- Consume exactly n decimal digits from the front of the character list. -/
def takeDigits (n : Nat) (l : List Char) : Option (Nat × List Char) :=
  let pre := l.take n
  if pre.length = n ∧ pre.all Char.isDigit then some (digitsToNat pre, l.drop n)
  else none

/-- Consume one expected character from the front of the character list. -/
def expect (c : Char) : List Char → Option (List Char)
  | x :: xs => if x = c then some xs else none
  | [] => none

/-- Leap year test of the proleptic Gregorian calendar. -/
def isLeapYear (y : Nat) : Bool :=
  (y % 4 = 0 ∧ y % 100 ≠ 0) ∨ y % 400 = 0

/-- Number of days in a month of a given year. -/
def daysInMonth (y m : Nat) : Nat :=
  if m = 2 then (if isLeapYear y then 29 else 28)
  else if m = 4 ∨ m = 6 ∨ m = 9 ∨ m = 11 then 30
  else 31

/-- A valid calendar date with the year range of Python datetime. -/
def validDate (y m d : Nat) : Bool :=
  1 ≤ y ∧ y ≤ 9999 ∧ 1 ≤ m ∧ m ≤ 12 ∧ 1 ≤ d ∧ d ≤ daysInMonth y m

/-- Consume an optional fraction of a second: a dot followed by one to six
digits, scaled to microseconds. -/
def parseFrac : List Char → Option (Nat × List Char)
  | '.' :: xs =>
    let digs := xs.takeWhile Char.isDigit
    if 1 ≤ digs.length ∧ digs.length ≤ 6 then
      some (digitsToNat digs * 10 ^ (6 - digs.length), xs.dropWhile Char.isDigit)
    else none
  | l => some (0, l)

/-- Consume a utc offset of the form HH:MM, in minutes. -/
def parseOffset (l : List Char) : Option (Int × List Char) := do
  let (hh, l) ← takeDigits 2 l
  let l ← expect ':' l
  let (mm, l) ← takeDigits 2 l
  if hh ≤ 23 ∧ mm ≤ 59 then pure (((hh * 60 + mm : Nat) : Int), l) else none

/-- Consume an optional time-zone suffix: Z means utc, or a signed HH:MM
offset; an empty suffix models a naive datetime. -/
def parseTz : List Char → Option (Option Int × List Char)
  | [] => some (none, [])
  | 'Z' :: xs => some (some 0, xs)
  | '+' :: xs => (parseOffset xs).map (fun p => (some p.1, p.2))
  | '-' :: xs => (parseOffset xs).map (fun p => (some (-p.1), p.2))
  | l => some (none, l)

/-- Modelled from the spec: the ISO-8601 date-time parsing step that the
spec's normalization and validation sentences rely on.  The parser itself
lives in the language runtime (datetime.fromisoformat) and not in this
repository; modelled here for the common subset YYYY-MM-DD, optionally
followed by a T or space separator, HH:MM:SS, an optional fraction of a
second, and an optional Z or signed HH:MM offset. -/
def fromisoformat (s : String) : Option Datetime := do
  let l := s.toList
  let (y, l) ← takeDigits 4 l
  let l ← expect '-' l
  let (mo, l) ← takeDigits 2 l
  let l ← expect '-' l
  let (da, l) ← takeDigits 2 l
  match l with
  | [] => if validDate y mo da then pure ⟨y, mo, da, 0, 0, 0, 0, none⟩ else none
  | sep :: l => do
    if sep = 'T' ∨ sep = ' ' then
      let (h, l) ← takeDigits 2 l
      let l ← expect ':' l
      let (mi, l) ← takeDigits 2 l
      let l ← expect ':' l
      let (se, l) ← takeDigits 2 l
      let (us, l) ← parseFrac l
      let (tz, l) ← parseTz l
      if l = [] ∧ validDate y mo da ∧ h ≤ 23 ∧ mi ≤ 59 ∧ se ≤ 59 then
        pure ⟨y, mo, da, h, mi, se, us, tz⟩
      else none
    else none

/-- PATCH request body after validation (class PatchConnectionRequest):
lastSyncAt carries either a parsed datetime or a raw string, as the Python
annotation Union datetime str does. -/
structure PatchConnectionRequest where
  lastSyncAt : Datetime ⊕ String
deriving DecidableEq

/-- Method lastSyncAt_iso of PatchConnectionRequest: the isoformat rendering
when the value is a datetime, and the string itself unchanged otherwise. -/
def PatchConnectionRequest.lastSyncAt_iso (p : PatchConnectionRequest) : String :=
  match p.lastSyncAt with
  | .inl d => d.isoformat
  | .inr s => s

/-- PATCH response body (class PatchConnectionResponse). -/
structure PatchConnectionResponse where
  id : String
  lastSyncAt : String
  message : String
deriving DecidableEq

/-- An HTTPException raised by a handler: a status code and a detail text. -/
structure HTTPError where
  status_code : Nat
  detail : String
deriving DecidableEq

/-- The in-memory store: the Python dict keyed by connection id, modelled as
an association list in insertion order. -/
abbrev Store := List (String × ConnectionResponse)

/-- First seeded fixture record of DUMMY_CONNECTIONS in src/main.py. -/
def conn_001 : ConnectionResponse :=
  { id := "conn_001"
    credentials :=
      { AppName := "Perry"
        AppSecret := "876442f4-6468-4f0e-bbbe-c97f82aa1e86"
        AppKey := "MQAwADMANwA4ADEANwAtADIARQA0ADQAQgBEAEQAOQA1ADIAOQA1ADQAQQBGAEYARAA3ADkAMQBCADgARQBCADUANQBDADgAOABEAA=="
        BaseURL := "https://cloud.hhaexchange.com" }
    foundry_config :=
      { profiles_dataset_rid := "ri.foundry.main.dataset.11c3e68b-7bfc-4783-82df-a8865663ca8b"
        visits_dataset_rid := "ri.foundry.main.dataset.57a68f07-1a41-43ea-a188-3611d68f83c5" }
    lastSyncAt := none }

/-- Second seeded fixture record of DUMMY_CONNECTIONS in src/main.py. -/
def conn_002 : ConnectionResponse :=
  { id := "conn_002"
    credentials :=
      { AppName := "Perry"
        AppSecret := "443ac9ad-6ac6-4c8f-855b-6460b3d99288"
        AppKey := "MQA2ADQANgAxADQALQAxADcAOQA4ADAAMABBAEQAMABEADYARQAwAEQAMgA5ADcAQwAyAEUANgAzAEQAOABGADQAMAA0ADkAOAA="
        BaseURL := "https://app2.hhaexchange.com" }
    foundry_config :=
      { profiles_dataset_rid := "ri.foundry.main.dataset.a64b4790-85ba-49ef-b320-d077ac044637"
        visits_dataset_rid := "ri.foundry.main.dataset.dec9dedd-23f5-4a15-ba7d-672226944caf" }
    lastSyncAt := some "2026-02-16T08:30:00+00:00" }

/-- The seeded fixture store DUMMY_CONNECTIONS of src/main.py. -/
def DUMMY_CONNECTIONS : Store :=
  [("conn_001", conn_001), ("conn_002", conn_002)]

/-- The 404 detail text built by both handlers for an unknown id. -/
def notFoundDetail (id : String) : String :=
  "Connection '" ++ id ++ "' not found."

/-- GET list handler (get_connections): returns every stored connection, in
store order, and leaves the store unchanged. -/
def get_connections (store : Store) : Store × List ConnectionResponse :=
  (store, store.map Prod.snd)

/-- GET by id handler (get_connection_by_id): returns the stored connection
for the id, or raises 404 with the interpolated detail; the store is
unchanged either way. -/
def get_connection_by_id (organization_datasource_id : String) (store : Store) :
    Store × Except HTTPError ConnectionResponse :=
  match store.lookup organization_datasource_id with
  | none => (store, .error ⟨404, notFoundDetail organization_datasource_id⟩)
  | some connection => (store, .ok connection)

/-- The single-field in-place write performed by the PATCH handler: the
record stored under the given key gets its lastSyncAt field replaced. -/
def setLastSync (store : Store) (id val : String) : Store :=
  store.map (fun kv =>
    if kv.1 = id then (kv.1, { kv.2 with lastSyncAt := some val }) else kv)

/-- PATCH handler (patch_connection): 404 with interpolated detail when the
id is absent; otherwise writes lastSyncAt_iso of the payload into the stored
record and answers with id, the written value, and a success message. -/
def patch_connection (payload : PatchConnectionRequest)
    (organization_datasource_id : String) (store : Store) :
    Store × Except HTTPError PatchConnectionResponse :=
  match store.lookup organization_datasource_id with
  | none => (store, .error ⟨404, notFoundDetail organization_datasource_id⟩)
  | some _ =>
    (setLastSync store organization_datasource_id payload.lastSyncAt_iso,
     .ok ⟨organization_datasource_id, payload.lastSyncAt_iso,
          "lastSyncAt updated successfully"⟩)

/-- A JSON value, as far as the request and response bodies of this service
need: strings, null, objects and arrays. -/
inductive Json where
  | null : Json
  | str : String → Json
  | obj : List (String × Json) → Json
  | arr : List Json → Json

/-- Key list of a JSON object (empty for non-objects). -/
def Json.keys : Json → List String
  | .obj kvs => kvs.map Prod.fst
  | _ => []

/-- Look up a key of a JSON object. -/
def Json.get : Json → String → Option Json
  | .obj kvs, k => kvs.lookup k
  | _, _ => none

/-- Serialization of the credentials model: field names in declaration
order, as the response_model serializes them. -/
def Credentials.toJson (c : Credentials) : Json :=
  .obj [("AppName", .str c.AppName), ("AppSecret", .str c.AppSecret),
        ("AppKey", .str c.AppKey), ("BaseURL", .str c.BaseURL)]

/-- Serialization of the foundry config model: the snake case field names
declared in class FoundryConfig. -/
def FoundryConfig.toJson (f : FoundryConfig) : Json :=
  .obj [("profiles_dataset_rid", .str f.profiles_dataset_rid),
        ("visits_dataset_rid", .str f.visits_dataset_rid)]

/-- Serialization of a connection through response_model ConnectionResponse:
field names in declaration order, lastSyncAt null when absent. -/
def ConnectionResponse.toJson (c : ConnectionResponse) : Json :=
  .obj [("id", .str c.id), ("credentials", c.credentials.toJson),
        ("foundry_config", c.foundry_config.toJson),
        ("lastSyncAt", match c.lastSyncAt with
                       | none => .null
                       | some s => .str s)]

/-- Modelled from the spec: pydantic validation of the PATCH body field
lastSyncAt annotated Union datetime str, fed from a JSON body (pydantic v2
smart-union semantics, which live in the framework and not in this
repository): a missing field is a 422 validation error, a JSON string
matches the str member exactly and is kept verbatim, and a null, object or
array value is a 422 validation error. -/
def validateLastSyncAt : Option Json → Except Nat (Datetime ⊕ String)
  | none => .error 422
  | some (.str s) => .ok (.inr s)
  | some _ => .error 422

/-- The PATCH endpoint including body validation: a validation failure is
answered 422 before the handler runs; otherwise the handler runs on the
validated payload (handler errors keep their status code). -/
def patch_endpoint (body : Option Json) (id : String) (store : Store) :
    Store × Except Nat PatchConnectionResponse :=
  match validateLastSyncAt body with
  | .error code => (store, .error code)
  | .ok v =>
    match patch_connection ⟨v⟩ id store with
    | (s, .ok r) => (s, .ok r)
    | (s, .error e) => (s, .error e.status_code)

/-- The key list of a store, in insertion order. -/
def keysOf (store : Store) : List String := store.map Prod.fst

/-- The store invariant of the spec: every stored connection carries an id
equal to its key, and keys are nonempty. -/
def storeInv (store : Store) : Prop :=
  ∀ p ∈ store, p.2.id = p.1 ∧ p.1 ≠ ""

instance (store : Store) : Decidable (storeInv store) :=
  decidable_of_iff (∀ p ∈ store, p.2.id = p.1 ∧ p.1 ≠ "") Iff.rfl

/-- Lookup at the head key of an association list. -/
theorem lookup_cons_self (k : String) (c : ConnectionResponse) (rest : Store) :
    List.lookup k ((k, c) :: rest) = some c := by
  simp [List.lookup]

/-- Lookup skips a head entry with a different key. -/
theorem lookup_cons_ne (k a : String) (c : ConnectionResponse) (rest : Store)
    (h : k ≠ a) : List.lookup k ((a, c) :: rest) = List.lookup k rest := by
  simp [List.lookup, beq_false_of_ne h]

/-- Unfolding of setLastSync on a cons cell. -/
theorem setLastSync_cons (a : String) (c : ConnectionResponse) (rest : Store)
    (id val : String) :
    setLastSync ((a, c) :: rest) id val =
      (if a = id then (a, { c with lastSyncAt := some val }) else (a, c)) ::
        setLastSync rest id val := by
  by_cases h : a = id <;> simp [setLastSync, h]

/-- setLastSync leaves the key list unchanged. -/
theorem setLastSync_keys (store : Store) (id val : String) :
    keysOf (setLastSync store id val) = keysOf store := by
  induction store with
  | nil => rfl
  | cons kv rest ih =>
    obtain ⟨a, c⟩ := kv
    rw [setLastSync_cons]
    by_cases h : a = id <;>
      simpa [keysOf, h] using congrArg (List.cons a) ih

/-- Looking up the patched key after setLastSync yields the old record with
only its lastSyncAt field replaced. -/
theorem lookup_setLastSync_self (store : Store) (id val : String) :
    (setLastSync store id val).lookup id =
      (store.lookup id).map (fun c => { c with lastSyncAt := some val }) := by
  induction store with
  | nil => rfl
  | cons kv rest ih =>
    obtain ⟨a, c⟩ := kv
    rw [setLastSync_cons]
    by_cases h : a = id
    · subst h
      rw [if_pos rfl, lookup_cons_self, lookup_cons_self]
      rfl
    · have h' : id ≠ a := fun hx => h hx.symm
      rw [if_neg h, lookup_cons_ne _ _ _ _ h', lookup_cons_ne _ _ _ _ h']
      exact ih

/-- Looking up any other key after setLastSync is unchanged. -/
theorem lookup_setLastSync_ne (store : Store) (id val k : String) (hk : k ≠ id) :
    (setLastSync store id val).lookup k = store.lookup k := by
  induction store with
  | nil => rfl
  | cons kv rest ih =>
    obtain ⟨a, c⟩ := kv
    rw [setLastSync_cons]
    by_cases h : a = id
    · have h' : k ≠ a := fun hx => hk (hx.trans h)
      rw [if_pos h, lookup_cons_ne _ _ _ _ h', lookup_cons_ne _ _ _ _ h']
      exact ih
    · by_cases h2 : k = a
      · subst h2
        rw [if_neg h, lookup_cons_self, lookup_cons_self]
      · rw [if_neg h, lookup_cons_ne _ _ _ _ h2, lookup_cons_ne _ _ _ _ h2]
        exact ih

/-- Writing the same value twice with setLastSync equals writing it once. -/
theorem setLastSync_idem (store : Store) (id val : String) :
    setLastSync (setLastSync store id val) id val = setLastSync store id val := by
  induction store with
  | nil => rfl
  | cons kv rest ih =>
    obtain ⟨a, c⟩ := kv
    rw [setLastSync_cons]
    by_cases h : a = id
    · rw [if_pos h, setLastSync_cons, if_pos h, ih]
    · rw [if_neg h, setLastSync_cons, if_neg h, ih]

/-- setLastSync preserves the store invariant. -/
theorem storeInv_setLastSync (store : Store) (id val : String)
    (h : storeInv store) : storeInv (setLastSync store id val) := by
  intro p hp
  simp only [setLastSync, List.mem_map] at hp
  obtain ⟨q, hq, hpq⟩ := hp
  have hq' := h q hq
  subst hpq
  by_cases hk : q.1 = id
  · rw [if_pos hk]
    exact ⟨hq'.1, hq'.2⟩
  · rw [if_neg hk]
    exact hq'

/-- A successful lookup comes from a member of the store with that key. -/
theorem mem_of_lookup (store : Store) (k : String) (c : ConnectionResponse)
    (h : store.lookup k = some c) : (k, c) ∈ store := by
  induction store with
  | nil => cases h
  | cons kv rest ih =>
    obtain ⟨a, c2⟩ := kv
    by_cases hk : k = a
    · subst hk
      rw [lookup_cons_self] at h
      cases h
      exact List.mem_cons_self _ _
    · rw [lookup_cons_ne _ _ _ _ hk] at h
      exact List.mem_cons_of_mem _ (ih h)

/-- Among pairwise distinct keys, a member of the store is what lookup of
its key returns. -/
theorem lookup_of_mem (store : Store) (k : String) (c : ConnectionResponse)
    (hnd : (keysOf store).Nodup) (hm : (k, c) ∈ store) :
    store.lookup k = some c := by
  induction store with
  | nil => cases hm
  | cons kv rest ih =>
    obtain ⟨a, c2⟩ := kv
    simp only [keysOf, List.map_cons, List.nodup_cons] at hnd
    rcases List.mem_cons.mp hm with heq | hmem
    · cases heq
      exact lookup_cons_self _ _ _
    · have hk : k ≠ a := by
        intro hkk
        subst hkk
        exact hnd.1 (List.mem_map_of_mem Prod.fst hmem)
      rw [lookup_cons_ne _ _ _ _ hk]
      exact ih hnd.2 hmem

/-- patch_connection never changes the key list of the store. -/
theorem patch_fst_keys (store : Store) (id : String) (p : PatchConnectionRequest) :
    keysOf (patch_connection p id store).1 = keysOf store := by
  unfold patch_connection
  split
  · rfl
  · exact setLastSync_keys store id p.lastSyncAt_iso

/-- patch_connection preserves the store invariant. -/
theorem patch_fst_inv (store : Store) (id : String) (p : PatchConnectionRequest)
    (h : storeInv store) : storeInv (patch_connection p id store).1 := by
  unfold patch_connection
  split
  · exact h
  · exact storeInv_setLastSync store id p.lastSyncAt_iso h

/-- get_connection_by_id returns the store unchanged. -/
theorem get_by_id_fst (store : Store) (id : String) :
    (get_connection_by_id id store).1 = store := by
  unfold get_connection_by_id
  split <;> rfl

/-- The store a successful patch returns is setLastSync of the old store. -/
theorem patch_fst_of_lookup (store : Store) (id : String)
    (p : PatchConnectionRequest) (c : ConnectionResponse)
    (h : store.lookup id = some c) :
    (patch_connection p id store).1 = setLastSync store id p.lastSyncAt_iso := by
  simp [patch_connection, h]

/-- C4: updateLastSync on an id absent from the store fails with NotFound as
HTTP 404 carrying the interpolated detail, and the store after the call is
exactly the store before it: no record created, no field changed. -/
theorem C4_patch_unknown_id (store : Store) (id : String)
    (p : PatchConnectionRequest) (h : store.lookup id = none) :
    patch_connection p id store = (store, .error ⟨404, notFoundDetail id⟩) := by
  simp [patch_connection, h]

/-- C4 witness: a patch of the unknown id conn_999 on the seeded store. -/
theorem C4_witness :
    patch_connection ⟨Sum.inr "2026-03-01T00:00:00+00:00"⟩ "conn_999"
      DUMMY_CONNECTIONS =
      (DUMMY_CONNECTIONS, .error ⟨404, notFoundDetail "conn_999"⟩) :=
  C4_patch_unknown_id DUMMY_CONNECTIONS "conn_999"
    ⟨Sum.inr "2026-03-01T00:00:00+00:00"⟩ (by decide)

/-- C5: under the id-matches-key invariant, getConnection on a present id
answers the stored record, whose id field equals the requested id; on an
absent id it fails with 404 and the interpolated detail; and the store is
unchanged in both cases. -/
theorem C5_get_connection_spec (store : Store) (id : String)
    (hinv : ∀ p ∈ store, p.2.id = p.1) :
    (∀ c, store.lookup id = some c →
        get_connection_by_id id store = (store, .ok c) ∧ c.id = id) ∧
    (store.lookup id = none →
        get_connection_by_id id store =
          (store, .error ⟨404, notFoundDetail id⟩)) ∧
    (get_connection_by_id id store).1 = store := by
  refine ⟨fun c hc => ⟨by simp [get_connection_by_id, hc], ?_⟩,
          fun h => by simp [get_connection_by_id, h],
          get_by_id_fst store id⟩
  exact hinv (id, c) (mem_of_lookup store id c hc)

/-- C5 witness: retrieval of the seeded conn_002 by its id. -/
theorem C5_witness :
    get_connection_by_id "conn_002" DUMMY_CONNECTIONS =
      (DUMMY_CONNECTIONS, .ok conn_002) ∧ conn_002.id = "conn_002" :=
  (C5_get_connection_spec DUMMY_CONNECTIONS "conn_002" (by decide)).1
    conn_002 (by decide)

/-- C6: updateLastSync followed by getConnection answers the old record with
lastSyncAt set to the normalized timestamp lastSyncAt_iso, and the update is
idempotent: a second identical call leaves the same store. -/
theorem C6_patch_then_get (store : Store) (id : String)
    (p : PatchConnectionRequest) (c : ConnectionResponse)
    (h : store.lookup id = some c) :
    (get_connection_by_id id (patch_connection p id store).1).2 =
      .ok { c with lastSyncAt := some p.lastSyncAt_iso } ∧
    (patch_connection p id (patch_connection p id store).1).1 =
      (patch_connection p id store).1 := by
  have hs1 := patch_fst_of_lookup store id p c h
  have hl : (setLastSync store id p.lastSyncAt_iso).lookup id =
      some { c with lastSyncAt := some p.lastSyncAt_iso } := by
    rw [lookup_setLastSync_self, h]
    rfl
  constructor
  · rw [hs1]
    simp [get_connection_by_id, hl]
  · rw [hs1]
    simp [patch_connection, hl, setLastSync_idem]

/-- C6 witness: patching the seeded conn_001 with a raw string timestamp and
reading it back. -/
theorem C6_witness :
    (get_connection_by_id "conn_001"
        (patch_connection ⟨Sum.inr "2026-02-16T08:30:00+00:00"⟩ "conn_001"
          DUMMY_CONNECTIONS).1).2 =
      .ok { conn_001 with lastSyncAt := some "2026-02-16T08:30:00+00:00" } ∧
    (patch_connection ⟨Sum.inr "2026-02-16T08:30:00+00:00"⟩ "conn_001"
        (patch_connection ⟨Sum.inr "2026-02-16T08:30:00+00:00"⟩ "conn_001"
          DUMMY_CONNECTIONS).1).1 =
      (patch_connection ⟨Sum.inr "2026-02-16T08:30:00+00:00"⟩ "conn_001"
        DUMMY_CONNECTIONS).1 :=
  C6_patch_then_get DUMMY_CONNECTIONS "conn_001"
    ⟨Sum.inr "2026-02-16T08:30:00+00:00"⟩ conn_001 (by decide)

/-- C8: a successful updateLastSync changes only the lastSyncAt field of the
record keyed by the patched id: the key list is unchanged, every other
record is unchanged, the patched record keeps its id, credentials and
foundry config, and neither read operation changes the store. -/
theorem C8_patch_frame (store : Store) (id : String)
    (p : PatchConnectionRequest) (c : ConnectionResponse)
    (h : store.lookup id = some c) :
    keysOf (patch_connection p id store).1 = keysOf store ∧
    (∀ k, k ≠ id →
        (patch_connection p id store).1.lookup k = store.lookup k) ∧
    (patch_connection p id store).1.lookup id =
      some { c with lastSyncAt := some p.lastSyncAt_iso } ∧
    (∀ c', (patch_connection p id store).1.lookup id = some c' →
        c'.id = c.id ∧ c'.credentials = c.credentials ∧
        c'.foundry_config = c.foundry_config) ∧
    (∀ q : Store, (get_connections q).1 = q) ∧
    (∀ (q : Store) (i : String), (get_connection_by_id i q).1 = q) := by
  have hs1 := patch_fst_of_lookup store id p c h
  have hl : (setLastSync store id p.lastSyncAt_iso).lookup id =
      some { c with lastSyncAt := some p.lastSyncAt_iso } := by
    rw [lookup_setLastSync_self, h]
    rfl
  refine ⟨patch_fst_keys store id p, fun k hk => ?_, ?_, fun c' hc' => ?_,
          fun q => rfl, fun q i => get_by_id_fst q i⟩
  · rw [hs1]
    exact lookup_setLastSync_ne store id p.lastSyncAt_iso k hk
  · rw [hs1, hl]
  · rw [hs1, hl] at hc'
    cases hc'
    exact ⟨rfl, rfl, rfl⟩

/-- C8 witness: patching the seeded conn_002 keeps id, credentials and
foundry config and only rewrites lastSyncAt. -/
theorem C8_witness :
    (patch_connection ⟨Sum.inr "2027-01-01T00:00:00+00:00"⟩ "conn_002"
        DUMMY_CONNECTIONS).1.lookup "conn_002" =
      some { conn_002 with lastSyncAt := some "2027-01-01T00:00:00+00:00" } :=
  (C8_patch_frame DUMMY_CONNECTIONS "conn_002"
    ⟨Sum.inr "2027-01-01T00:00:00+00:00"⟩ conn_002 (by decide)).2.2.1

/-- C9: the store invariant holds of the seeded store, whose key list is
exactly the seeded ids, and every operation preserves it: patch keeps the
key list whether it succeeds or fails and preserves the invariant, and both
reads return the store unchanged. -/
theorem C9_store_invariant :
    storeInv DUMMY_CONNECTIONS ∧
    keysOf DUMMY_CONNECTIONS = ["conn_001", "conn_002"] ∧
    ∀ (store : Store) (id : String) (p : PatchConnectionRequest),
      keysOf (patch_connection p id store).1 = keysOf store ∧
      (storeInv store → storeInv (patch_connection p id store).1) ∧
      (get_connections store).1 = store ∧
      (get_connection_by_id id store).1 = store := by
  refine ⟨by decide, rfl, fun store id p =>
    ⟨patch_fst_keys store id p, patch_fst_inv store id p, rfl,
     get_by_id_fst store id⟩⟩

/-- C9 witness: the invariant after patching the seeded store. -/
theorem C9_witness :
    storeInv (patch_connection ⟨Sum.inr "2026-06-01T00:00:00+00:00"⟩
      "conn_001" DUMMY_CONNECTIONS).1 :=
  (C9_store_invariant.2.2 DUMMY_CONNECTIONS "conn_001"
    ⟨Sum.inr "2026-06-01T00:00:00+00:00"⟩).2.1 (by decide)

/-- C10: on a successful updateLastSync the response body agrees with the
store: its id is the requested path id, its lastSyncAt equals the value
stored in the record at return, and its message is the success message. -/
theorem C10_patch_response (store : Store) (id : String)
    (p : PatchConnectionRequest) (c : ConnectionResponse)
    (h : store.lookup id = some c) :
    (patch_connection p id store).2 =
      .ok ⟨id, p.lastSyncAt_iso, "lastSyncAt updated successfully"⟩ ∧
    ((patch_connection p id store).1.lookup id).map
      ConnectionResponse.lastSyncAt = some (some p.lastSyncAt_iso) := by
  constructor
  · simp [patch_connection, h]
  · rw [patch_fst_of_lookup store id p c h, lookup_setLastSync_self, h]
    rfl

/-- C10 witness: the response body of a patch of the seeded conn_002. -/
theorem C10_witness :
    (patch_connection ⟨Sum.inr "2026-04-01T12:00:00+00:00"⟩ "conn_002"
        DUMMY_CONNECTIONS).2 =
      .ok ⟨"conn_002", "2026-04-01T12:00:00+00:00",
           "lastSyncAt updated successfully"⟩ ∧
    ((patch_connection ⟨Sum.inr "2026-04-01T12:00:00+00:00"⟩ "conn_002"
          DUMMY_CONNECTIONS).1.lookup "conn_002").map
      ConnectionResponse.lastSyncAt = some (some "2026-04-01T12:00:00+00:00") :=
  C10_patch_response DUMMY_CONNECTIONS "conn_002"
    ⟨Sum.inr "2026-04-01T12:00:00+00:00"⟩ conn_002 (by decide)

/-- C7: listConnections always succeeds with the full store in insertion
order: it returns the store unchanged, its length equals the store's (two on
the seeded fixture), the empty store yields the empty sequence, and under
distinct keys and the id-matches-key invariant every listed record is
retrievable via getConnection at its own id. -/
theorem C7_list_connections :
    (get_connections DUMMY_CONNECTIONS).2.length = 2 ∧
    ∀ store : Store,
      (get_connections store).1 = store ∧
      (get_connections store).2.length = store.length ∧
      (store = [] → (get_connections store).2 = []) ∧
      ((keysOf store).Nodup → (∀ q ∈ store, q.2.id = q.1) →
        ∀ c ∈ (get_connections store).2,
          get_connection_by_id c.id store = (store, .ok c)) := by
  refine ⟨rfl, fun store =>
    ⟨rfl, by simp [get_connections], fun h => by simp [h, get_connections], ?_⟩⟩
  intro hnd hinv c hc
  simp only [get_connections, List.mem_map] at hc
  obtain ⟨q, hq, hqc⟩ := hc
  have hid : c.id = q.1 := by
    rw [← hqc]
    exact hinv q hq
  have hmem : (q.1, c) ∈ store := by
    rw [← hqc]
    simpa using hq
  have hlk : store.lookup c.id = some c := by
    rw [hid]
    exact lookup_of_mem store q.1 c hnd hmem
  simp [get_connection_by_id, hlk]

/-- C7 witness: the seeded conn_001 listed by listConnections is retrieved
by getConnection at its id field. -/
theorem C7_witness :
    get_connection_by_id conn_001.id DUMMY_CONNECTIONS =
      (DUMMY_CONNECTIONS, .ok conn_001) :=
  (C7_list_connections.2 DUMMY_CONNECTIONS).2.2.2 (by decide) (by decide)
    conn_001 (by decide)

/-- C1 (amended): on a successful patch the value placed in the stored
record and the value in the response are identical, both being
lastSyncAt_iso of the payload; that value is the canonical isoformat
rendering when the timestamp arrived as a parsed datetime, but a timestamp
arriving as a raw string is kept verbatim with no parse-and-canonicalize
step. -/
theorem C1_patch_normalization (store : Store) (id : String)
    (p : PatchConnectionRequest) (c : ConnectionResponse)
    (h : store.lookup id = some c) :
    ((patch_connection p id store).1.lookup id).map
      ConnectionResponse.lastSyncAt = some (some p.lastSyncAt_iso) ∧
    (patch_connection p id store).2 =
      .ok ⟨id, p.lastSyncAt_iso, "lastSyncAt updated successfully"⟩ ∧
    (∀ d, p.lastSyncAt = Sum.inl d → p.lastSyncAt_iso = d.isoformat) ∧
    (∀ s, p.lastSyncAt = Sum.inr s → p.lastSyncAt_iso = s) := by
  refine ⟨?_, by simp [patch_connection, h], fun d hd => ?_, fun s hs => ?_⟩
  · rw [patch_fst_of_lookup store id p c h, lookup_setLastSync_self, h]
    rfl
  · rw [PatchConnectionRequest.lastSyncAt_iso, hd]
  · rw [PatchConnectionRequest.lastSyncAt_iso, hs]

/-- C1 witness: patching the seeded conn_001 with a raw string stores and
answers that very string. -/
theorem C1_witness :
    ((patch_connection ⟨Sum.inr "2026-05-01T00:00:00+00:00"⟩ "conn_001"
          DUMMY_CONNECTIONS).1.lookup "conn_001").map
      ConnectionResponse.lastSyncAt =
      some (some "2026-05-01T00:00:00+00:00") :=
  (C1_patch_normalization DUMMY_CONNECTIONS "conn_001"
    ⟨Sum.inr "2026-05-01T00:00:00+00:00"⟩ conn_001 (by decide)).1

/-- C1 counterexample: a timestamp arriving as the raw string with a Z
suffix is stored verbatim, not as the canonical isoformat rendering of the
instant it parses to, so two string forms of the same instant coexist (the
seeded conn_002 already holds the +00:00 form of this very instant). -/
theorem C1_counterexample :
    ¬ (∀ (store : Store) (id s : String) (d : Datetime)
         (c : ConnectionResponse),
        store.lookup id = some c → fromisoformat s = some d →
        ((patch_connection ⟨Sum.inr s⟩ id store).1.lookup id).map
          ConnectionResponse.lastSyncAt = some (some d.isoformat)) := by
  intro hclaim
  have h := hclaim DUMMY_CONNECTIONS "conn_001" "2026-02-16T08:30:00Z"
    ⟨2026, 2, 16, 8, 30, 0, 0, some 0⟩ conn_001 (by decide) (by decide)
  exact absurd h (by decide)

/-- C2 (amended): the PATCH is rejected with 422 exactly when the body's
lastSyncAt is missing or not a JSON string; every string value, parseable as
a date-time or not, passes validation verbatim, and on a present id the
patch succeeds and the string reaches the store. -/
theorem C2_patch_validation (body : Option Json) (id : String) (store : Store) :
    ((∃ v, validateLastSyncAt body = .ok v) ↔ ∃ s, body = some (Json.str s)) ∧
    (patch_endpoint none id store = (store, .error 422)) ∧
    (∀ s c, body = some (Json.str s) → store.lookup id = some c →
      (patch_endpoint body id store).2 =
        .ok ⟨id, s, "lastSyncAt updated successfully"⟩ ∧
      ((patch_endpoint body id store).1.lookup id).map
        ConnectionResponse.lastSyncAt = some (some s)) := by
  refine ⟨?_, rfl, fun s c hb h => ?_⟩
  · constructor
    · rintro ⟨v, hv⟩
      match body, hv with
      | some (Json.str s), _ => exact ⟨s, rfl⟩
    · rintro ⟨s, hs⟩
      exact ⟨Sum.inr s, by rw [hs]; rfl⟩
  · subst hb
    have hpatch := patch_fst_of_lookup store id ⟨Sum.inr s⟩ c h
    have hend : patch_endpoint (some (Json.str s)) id store =
        (setLastSync store id s,
         .ok ⟨id, s, "lastSyncAt updated successfully"⟩) := by
      simp [patch_endpoint, validateLastSyncAt, patch_connection, h,
            PatchConnectionRequest.lastSyncAt_iso]
    rw [hend]
    constructor
    · rfl
    · rw [lookup_setLastSync_self, h]
      rfl

/-- C2 witness: the unparseable string body not-a-date is accepted and
stored on the seeded conn_001. -/
theorem C2_witness :
    (patch_endpoint (some (Json.str "not-a-date")) "conn_001"
        DUMMY_CONNECTIONS).2 =
      .ok ⟨"conn_001", "not-a-date", "lastSyncAt updated successfully"⟩ :=
  ((C2_patch_validation (some (Json.str "not-a-date")) "conn_001"
      DUMMY_CONNECTIONS).2.2 "not-a-date" conn_001 rfl (by decide)).1

/-- C2 counterexample: a body whose lastSyncAt string does not parse as a
date-time is not rejected with 422; the patch reaches the store and rewrites
the record. -/
theorem C2_counterexample :
    ¬ (∀ (s id : String) (store : Store),
        fromisoformat s = none →
        patch_endpoint (some (Json.str s)) id store = (store, .error 422)) := by
  intro hclaim
  have h := hclaim "not-a-date" "conn_001" DUMMY_CONNECTIONS (by decide)
  have h2 := congrArg
    (fun r : Store × Except Nat PatchConnectionResponse =>
      (r.1.lookup "conn_001").map ConnectionResponse.lastSyncAt) h
  exact absurd h2 (by decide)

/-- C3 (amended): every connection returned by listConnections or
getConnection serializes with the top-level keys id, credentials,
foundry_config and lastSyncAt: the snake case name foundry_config holding
the snake case keys profiles_dataset_rid and visits_dataset_rid rather than
camel case names, alongside the four credential keys, with lastSyncAt the
stored string or null. -/
theorem C3_serialized_shape (store : Store) (c : ConnectionResponse)
    (hc : c ∈ (get_connections store).2 ∨
          ∃ id, (get_connection_by_id id store).2 = .ok c) :
    (ConnectionResponse.toJson c).keys =
      ["id", "credentials", "foundry_config", "lastSyncAt"] ∧
    (ConnectionResponse.toJson c).get "id" = some (.str c.id) ∧
    (ConnectionResponse.toJson c).get "credentials" =
      some (Credentials.toJson c.credentials) ∧
    (Credentials.toJson c.credentials).keys =
      ["AppName", "AppSecret", "AppKey", "BaseURL"] ∧
    (ConnectionResponse.toJson c).get "foundry_config" =
      some (FoundryConfig.toJson c.foundry_config) ∧
    (FoundryConfig.toJson c.foundry_config).keys =
      ["profiles_dataset_rid", "visits_dataset_rid"] ∧
    (ConnectionResponse.toJson c).get "foundryConfig" = none ∧
    (ConnectionResponse.toJson c).get "lastSyncAt" =
      some (match c.lastSyncAt with
            | none => Json.null
            | some s => Json.str s) := by
  refine ⟨rfl, rfl, rfl, rfl, rfl, rfl, rfl, rfl⟩

/-- C3 witness: the shape of the serialized seeded conn_001, which
listConnections returns. -/
theorem C3_witness :
    (ConnectionResponse.toJson conn_001).keys =
      ["id", "credentials", "foundry_config", "lastSyncAt"] :=
  (C3_serialized_shape DUMMY_CONNECTIONS conn_001 (Or.inl (by decide))).1

/-- C3 counterexample: the seeded conn_001 returned by listConnections
serializes with no key foundryConfig; its nested record sits under the snake
case key foundry_config with snake case inner keys. -/
theorem C3_counterexample :
    conn_001 ∈ (get_connections DUMMY_CONNECTIONS).2 ∧
    ("foundryConfig" ∈ (ConnectionResponse.toJson conn_001).keys → False) ∧
    (ConnectionResponse.toJson conn_001).get "foundryConfig" = none ∧
    (ConnectionResponse.toJson conn_001).get "foundry_config" =
      some (FoundryConfig.toJson conn_001.foundry_config) ∧
    (FoundryConfig.toJson conn_001.foundry_config).keys =
      ["profiles_dataset_rid", "visits_dataset_rid"] := by
  exact ⟨by decide, by decide, rfl, rfl, rfl⟩
